import Mathlib

/-!
Shallow embedding of the MangaExtension popup's CRUD + render core.

Sources embedded here:
* `src/unnamed/part_002` — form submission, validation, title uniqueness,
  chapter updates, link reload, deletion (`isNameUsed`, `validateMangaData`,
  `addNewManga`, `hasChanges`, `updateMangaDetails`, `generateUniqueTitle`,
  `getMangaFormData`, `handleChapterUpdate`, `handleLinkReload`, `deleteManga`).
* `src/scripts/loadMangas.js` — batched rendering (`loadMangas`,
  `createMangaElement`, `handleImageTheme`).

Modelling conventions: the global `mangaList` is passed explicitly; DOM reads
(form fields, the active tab's title/URL, the current time string) are
parameters; DOM writes are returned as record/structure fields. JS numbers
that hold chapter counts are modelled as `Int` (they can go below zero, which
is precisely one of the questions at stake). Strings are Lean `String`s.
-/

/-- Decimal digit to its character, as JS number-to-string printing does. -/
def digitChar (d : Nat) : Char :=
  match d with
  | 0 => '0' | 1 => '1' | 2 => '2' | 3 => '3' | 4 => '4'
  | 5 => '5' | 6 => '6' | 7 => '7' | 8 => '8' | 9 => '9'
  | _ => '*'

/-- Little-endian decimal digit characters of `n`; `fuel` bounds the recursion
and `fuel = n` is always enough. -/
def toDecimalAux : Nat → Nat → List Char
  | 0, _ => []
  | _, 0 => []
  | fuel+1, n+1 => digitChar ((n+1) % 10) :: toDecimalAux fuel ((n+1) / 10)

/-- Decimal string of a natural number, as JS template-literal interpolation
(`${n}`) renders a non-negative integer. -/
def natRepr (n : Nat) : String :=
  if n = 0 then "0" else ⟨(toDecimalAux n n).reverse⟩

/-- Decimal string of an integer, as JS string conversion renders an integer. -/
def intRepr (i : Int) : String :=
  if i < 0 then "-" ++ natRepr i.natAbs else natRepr i.toNat

/-- One manga record of the store (`mangaList` entries): the object shape
created by `addNewManga` in `src/unnamed/part_002`. -/
structure Manga where
  image : String
  title : String
  link : String
  isImageWorking : Bool
  readChapters : Int
  favorite : Bool
  dayAdded : String
  lastRead : String
deriving DecidableEq, Repr

/-- The object returned by `getMangaFormData` (`src/unnamed/part_002`,
lines 171–178): submitted form data before timestamps are attached. -/
structure MangaData where
  image : String
  title : String
  link : String
  isImageWorking : Bool
  readChapters : Int
  favorite : Bool
deriving DecidableEq, Repr

/-- The trimmed form-field values read by `getMangaFormData`. `readChapters`
is the result of `parseInt(readChaptersInput, 10)`: `none` models `NaN`. -/
structure FormInput where
  image : String
  title : String
  link : String
  readChapters : Option Int
  favorite : Bool
deriving DecidableEq, Repr

/-- `isNameUsed` (`src/unnamed/part_002`, lines 237–239):
`mangaList.some(manga => manga.title === title)`. -/
def isNameUsed (mangaList : List Manga) (title : String) : Bool :=
  mangaList.any (fun manga => manga.title == title)

/-- `validateMangaData` (`src/unnamed/part_002`, lines 189–197). Returns the
modal message key on failure (`TitleRequired` / `TitleNotUnique` in the
spec's taxonomy) and `none` when the data is valid. -/
def validateMangaData (mangaList : List Manga) (mangaData : MangaData)
    (originalTitle : String := "") : Option String :=
  if mangaData.title = "" then
    some "modal-title-required"
  else if mangaData.title ≠ originalTitle ∧ isNameUsed mangaList mangaData.title then
    some "modal-unique-title-required"
  else
    none

/-- Helper of `generateUniqueTitle`: the candidate produced by the template
literal ``` `${title} (${counter})` ``` (`src/unnamed/part_002`, line 142). -/
def mkCandidate (title : String) (counter : Nat) : String :=
  title ++ " (" ++ natRepr counter ++ ")"

/-- The counter loop of `generateUniqueTitle` (`src/unnamed/part_002`,
lines 141–150). `fuel` bounds the `while`; `mangaList.length + 1` steps always
find an unused candidate, so the fuel-exhausted branch is unreachable there. -/
def generateUniqueTitleGo (mangaList : List Manga) (title : String) : Nat → Nat → String
  | counter, 0 => mkCandidate title counter
  | counter, fuel+1 =>
    if isNameUsed mangaList (mkCandidate title counter) then
      generateUniqueTitleGo mangaList title (counter+1) fuel
    else
      mkCandidate title counter

/-- `generateUniqueTitle` (`src/unnamed/part_002`, lines 138–151). -/
def generateUniqueTitle (mangaList : List Manga) (title : String) : String :=
  if isNameUsed mangaList title then
    generateUniqueTitleGo mangaList title 1 (mangaList.length + 1)
  else
    title

/-- `getMangaFormData` (`src/unnamed/part_002`, lines 158–179). The form
fields arrive already trimmed in `form`; `tabTitle`/`tabUrl` are the active
tab info resolved by `getCurrentTabInfo`. Empty strings are JS-falsy, so
`linkInput || tabUrl` and `titleInput || generateUniqueTitle(tabTitle)` are
empty-string tests; `parseInt` yielding `NaN` (here `none`) or a negative
count normalizes `readChapters` to 0. -/
def getMangaFormData (mangaList : List Manga) (form : FormInput)
    (tabTitle tabUrl : String) : MangaData :=
  let link := if form.link = "" then tabUrl else form.link
  let title := if form.title = "" then generateUniqueTitle mangaList tabTitle else form.title
  let validReadChapters :=
    match form.readChapters with
    | none => 0
    | some readChapters => if readChapters < 0 then 0 else readChapters
  { image := form.image
    title := title
    link := link
    isImageWorking := true
    readChapters := validReadChapters
    favorite := form.favorite }

/-- The record pushed by `addNewManga`: `{ ...mangaData, dayAdded: date,
lastRead: date }` (`src/unnamed/part_002`, lines 62–67). -/
def newMangaOf (mangaData : MangaData) (date : String) : Manga :=
  { image := mangaData.image
    title := mangaData.title
    link := mangaData.link
    isImageWorking := mangaData.isImageWorking
    readChapters := mangaData.readChapters
    favorite := mangaData.favorite
    dayAdded := date
    lastRead := date }

/-- `addNewManga` (`src/unnamed/part_002`, lines 53–74). On a validation
error the key handed to `showModal` is returned and the list is untouched;
otherwise the new record is pushed. `now` is `new Date().toLocaleString()`. -/
def addNewManga (mangaList : List Manga) (form : FormInput)
    (tabTitle tabUrl now : String) : Option String × List Manga :=
  let mangaData := getMangaFormData mangaList form tabTitle tabUrl
  match validateMangaData mangaList mangaData with
  | some validationError => (some validationError, mangaList)
  | none => (none, mangaList ++ [newMangaOf mangaData now])

/-- `hasChanges` (`src/unnamed/part_002`, lines 76–83). Despite its name it
returns `true` when every compared field — including the link — is unchanged. -/
def hasChanges (manga : Manga) (mangaData : MangaData) : Bool :=
  manga.image == mangaData.image &&
  manga.link == mangaData.link &&
  manga.readChapters == mangaData.readChapters &&
  manga.title == mangaData.title &&
  manga.favorite == mangaData.favorite

/-- Effect of `Object.assign(manga, mangaData, { lastRead: now })`
(`src/unnamed/part_002`, line 102): every `mangaData` field overwrites the
record, `lastRead` is refreshed, `dayAdded` is kept. -/
def mergeManga (manga : Manga) (mangaData : MangaData) (now : String) : Manga :=
  { image := mangaData.image
    title := mangaData.title
    link := mangaData.link
    isImageWorking := mangaData.isImageWorking
    readChapters := mangaData.readChapters
    favorite := mangaData.favorite
    dayAdded := manga.dayAdded
    lastRead := now }

/-- Observable outcome of an edit-mode submission
(`handleFormSubmission` + `updateMangaDetails` + `handleLinkReload`):
target missing, validation modal, reload dialog shown, dialogs silently
closed (tab URL equals the stored link), or changes saved. -/
inductive UpdateOutcome where
  | notFound
  | rejected (errorKey : String)
  | reloadPrompt
  | dialogsClosed
  | saved
deriving DecidableEq, Repr

/-- Recursion over the store mirroring `mangaList.find(m => m.title ===
mangaTitle)` (`src/unnamed/part_002`, line 21) followed by the in-place
mutation of the found record in `updateMangaDetails` (lines 90–107) and the
immediate part of `handleLinkReload` (lines 322–348): when the submitted data
is entirely unchanged, the tab URL equal to the stored link closes the
dialogs, otherwise the reload dialog is shown and nothing is saved yet. -/
def updateMangaGo (mangaList : List Manga) (targetTitle : String)
    (mangaData : MangaData) (tabUrl now : String) :
    List Manga → UpdateOutcome × List Manga
  | [] => (.notFound, [])
  | manga :: rest =>
    if manga.title == targetTitle then
      match validateMangaData mangaList mangaData manga.title with
      | some validationError => (.rejected validationError, manga :: rest)
      | none =>
        if hasChanges manga mangaData then
          if manga.link == tabUrl then
            (.dialogsClosed, manga :: rest)
          else
            (.reloadPrompt, manga :: rest)
        else
          (.saved, mergeManga manga mangaData now :: rest)
    else
      let r := updateMangaGo mangaList targetTitle mangaData tabUrl now rest
      (r.1, manga :: r.2)

/-- `updateMangaDetails` (`src/unnamed/part_002`, lines 90–107), including the
lookup of the edit target by the form's stored title (`handleFormSubmission`,
lines 20–26) and the synchronous part of `handleLinkReload`. -/
def updateMangaDetails (mangaList : List Manga) (targetTitle : String)
    (form : FormInput) (tabTitle tabUrl now : String) : UpdateOutcome × List Manga :=
  updateMangaGo mangaList targetTitle
    (getMangaFormData mangaList form tabTitle tabUrl) tabUrl now mangaList

/-- The `confirmReload` click handler of `handleLinkReload`
(`src/unnamed/part_002`, lines 339–347): on confirmation the captured record
— the one `updateMangaDetails` found first by title — gets `link` replaced by
the tab URL unless it already equals it. -/
def confirmReloadGo (targetTitle url : String) : List Manga → List Manga
  | [] => []
  | manga :: rest =>
    if manga.title == targetTitle then
      (if manga.link == url then manga else { manga with link := url }) :: rest
    else
      manga :: confirmReloadGo targetTitle url rest

/-- `deleteManga` (`src/unnamed/part_002`, lines 377–384):
`mangaList.filter(m => m !== manga)`. JS strict inequality on objects is
reference identity; structural inequality models it faithfully whenever the
record occurs at exactly one position of the store. -/
def deleteManga (mangaList : List Manga) (manga : Manga) : List Manga :=
  mangaList.filter (fun m => decide (m ≠ manga))

/-- DOM text updates performed by `handleChapterUpdate`: the record after the
call, the thrown message if any, and the `textContent` written to the
`#date` and `#chapter-count` elements (`none` when the throw happens first). -/
structure ChapterUpdateResult where
  error : Option String
  manga : Manga
  dateText : Option String
  chaptersText : Option String
deriving DecidableEq, Repr

/-- `handleChapterUpdate` (`src/unnamed/part_002`, lines 290–320).
`amount = parseInt(amount, 10) || 1` turns 0 into 1; callers in
`loadMangas.js` always pass 1. The `getMaxChapters`/`handleMaxChapters`
warning on the `"+"` path is absent from the repository sources; modelled
from the spec: the spec specifies no chapter cap, so it is a display-only
no-op that receives a scalar and cannot alter the record. The `"-"` path
assigns 0 only when the count is already ≤ 0, else subtracts. Both update
paths then refresh `lastRead` and rewrite the two text nodes; an invalid
operation throws before any assignment. -/
def handleChapterUpdate (manga : Manga) (operation : String) (amount : Int)
    (now : String) : ChapterUpdateResult :=
  let amt := if amount = 0 then 1 else amount
  if operation = "+" then
    let updated := { manga with readChapters := manga.readChapters + amt, lastRead := now }
    { error := none
      manga := updated
      dateText := some updated.lastRead
      chaptersText := some ("Ch. " ++ intRepr updated.readChapters) }
  else if operation = "-" then
    let newCount := if manga.readChapters ≤ 0 then 0 else manga.readChapters - amt
    let updated := { manga with readChapters := newCount, lastRead := now }
    { error := none
      manga := updated
      dateText := some updated.lastRead
      chaptersText := some ("Ch. " ++ intRepr updated.readChapters) }
  else
    { error := some "Invalid operation. Use '+' or '-'."
      manga := manga
      dateText := none
      chaptersText := none }

/-- `handleImageTheme` (`src/scripts/loadMangas.js`, lines 37–41). -/
def handleImageTheme (darkMode : Bool) : String :=
  if darkMode then
    "../public/fallback-images/dark-mode-fallback.svg"
  else
    "../public/fallback-images/light-mode-fallback.svg"

/-- Displayed fields of one rendered list item. -/
structure MangaElement where
  datasetTitle : String
  imageSrc : String
  linkHref : String
  titleText : String
  dateText : String
  chapterText : String
  favoriteFilled : Bool
deriving DecidableEq, Repr

/-- `createMangaElement` (`src/scripts/loadMangas.js`, lines 124–191),
restricted to the data-bearing parts of the template: the image source picks
the theme fallback when `isImageWorking` is false, and the visible title is
`manga.title.length < 20 ? manga.title : manga.title.substring(0, 22 - 3)
+ "..."` (line 157). -/
def createMangaElement (manga : Manga) (darkMode : Bool) : MangaElement :=
  { datasetTitle := manga.title
    imageSrc := if manga.isImageWorking then manga.image else handleImageTheme darkMode
    linkHref := manga.link
    titleText :=
      if manga.title.length < 20 then manga.title
      else ⟨manga.title.data.take (22 - 3)⟩ ++ "..."
    dateText := manga.lastRead
    chapterText := "Ch. " ++ intRepr manga.readChapters
    favoriteFilled := manga.favorite }

/-- The `loadBatch` loop of `loadMangas` (`src/scripts/loadMangas.js`,
lines 93–110), as the list of append events: each call appends
`inputList.slice(currentIndex, min(currentIndex + batchSize, length))` and
schedules another frame only while `currentIndex < inputList.length`. The
remaining list stands for the part from `currentIndex` on; `fuel` bounds the
frames and `length + 1` frames always finish when `batchSize > 0`. -/
def loadBatchGo : Nat → List α → Nat → List (List α)
  | 0, _, _ => []
  | fuel+1, remaining, batchSize =>
    remaining.take batchSize ::
      (if batchSize < remaining.length then
        loadBatchGo fuel (remaining.drop batchSize) batchSize
      else
        [])

/-- `loadMangas` (`src/scripts/loadMangas.js`, lines 87–115) as the sequence
of DOM append events after the container is cleared; `batchSize` defaults
to 3 as in the source. -/
def loadMangas (inputList : List α) (batchSize : Nat := 3) : List (List α) :=
  loadBatchGo (inputList.length + 1) inputList batchSize

/-- Append-event sizes produced by the `loadBatch` loop as a function of the
list length alone (same recursion as `loadBatchGo`). -/
def loadLensGo : Nat → Nat → Nat → List Nat
  | 0, _, _ => []
  | fuel+1, n, batchSize =>
    min batchSize n ::
      (if batchSize < n then loadLensGo fuel (n - batchSize) batchSize else [])

/-- One user-level store operation for the title-uniqueness invariant:
a create-mode submission, an edit-mode submission (with the link-reload
confirmation answer), or a confirmed deletion. -/
inductive Op where
  | add (form : FormInput) (tabTitle tabUrl now : String)
  | edit (targetTitle : String) (form : FormInput) (tabTitle tabUrl now : String)
      (confirm : Bool)
  | delete (manga : Manga)
deriving Repr

/-- Effect of one operation on the store, composing the embedded source
functions; an edit answered with "confirm" on the reload dialog applies the
`confirmReload` handler to the prompted record. -/
def applyOp (mangaList : List Manga) : Op → List Manga
  | .add form tabTitle tabUrl now => (addNewManga mangaList form tabTitle tabUrl now).2
  | .edit targetTitle form tabTitle tabUrl now confirm =>
    let r := updateMangaDetails mangaList targetTitle form tabTitle tabUrl now
    if r.1 = UpdateOutcome.reloadPrompt ∧ confirm then
      confirmReloadGo targetTitle tabUrl r.2
    else
      r.2
  | .delete manga => deleteManga mangaList manga

/-- Written from the spec's words for claim C4: the submitted data agrees
with the stored record on every compared field except possibly the link. -/
def specUnchangedExceptLink (manga : Manga) (mangaData : MangaData) : Bool :=
  manga.image == mangaData.image &&
  manga.readChapters == mangaData.readChapters &&
  manga.title == mangaData.title &&
  manga.favorite == mangaData.favorite

/-! ### Basic lemmas about the embedded helpers -/

lemma string_data_inj {s t : String} (h : s.data = t.data) : s = t := by
  cases s; cases t; exact congrArg String.mk h

lemma digitChar_inj : ∀ d1 < 10, ∀ d2 < 10, digitChar d1 = digitChar d2 → d1 = d2 := by
  decide

lemma toDecimalAux_eq_digits : ∀ fuel n, n ≤ fuel →
    toDecimalAux fuel n = (Nat.digits 10 n).map digitChar := by
  intro fuel
  induction fuel with
  | zero =>
    intro n hn
    interval_cases n
    simp [toDecimalAux]
  | succ fuel ih =>
    intro n hn
    match n with
    | 0 => simp [toDecimalAux]
    | n+1 =>
      rw [toDecimalAux, Nat.digits_def' (by norm_num : (1:ℕ) < 10) (Nat.succ_pos n)]
      rw [List.map_cons, ih ((n+1) / 10) ?_]
      have : (n+1) / 10 < n + 1 := Nat.div_lt_self (Nat.succ_pos n) (by norm_num)
      omega

lemma map_digitChar_inj : ∀ xs ys : List Nat, (∀ x ∈ xs, x < 10) → (∀ y ∈ ys, y < 10) →
    xs.map digitChar = ys.map digitChar → xs = ys := by
  intro xs
  induction xs with
  | nil =>
    intro ys _ _ h
    cases ys with
    | nil => rfl
    | cons y ys => simp at h
  | cons x xs ih =>
    intro ys hxs hys h
    cases ys with
    | nil => simp at h
    | cons y ys =>
      simp only [List.map_cons, List.cons.injEq] at h
      have hx : x = y :=
        digitChar_inj x (hxs x (by simp)) y (hys y (by simp)) h.1
      have : xs = ys := ih ys (fun a ha => hxs a (by simp [ha])) (fun a ha => hys a (by simp [ha])) h.2
      rw [hx, this]

lemma natRepr_data (n : Nat) (hn : n ≠ 0) :
    (natRepr n).data = ((Nat.digits 10 n).map digitChar).reverse := by
  rw [natRepr, if_neg hn, toDecimalAux_eq_digits n n le_rfl]

lemma natRepr_inj {a b : Nat} (h : natRepr a = natRepr b) : a = b := by
  have hdata := congrArg String.data h
  by_cases ha : a = 0 <;> by_cases hb : b = 0
  · rw [ha, hb]
  · exfalso
    rw [ha, natRepr_data b hb] at hdata
    have h0 : (['0'] : List Char) = ((Nat.digits 10 b).map digitChar).reverse := hdata
    have hlen : (Nat.digits 10 b).length = 1 := by
      have := congrArg List.length h0
      simpa using this.symm
    obtain ⟨d, hd⟩ : ∃ d, Nat.digits 10 b = [d] := by
      match hdig : Nat.digits 10 b with
      | [] => rw [hdig] at hlen; simp at hlen
      | [d] => exact ⟨d, rfl⟩
      | d :: e :: rest => rw [hdig] at hlen; simp at hlen
    rw [hd] at h0
    have hchar : digitChar d = '0' := by simpa using h0.symm
    have hd10 : d < 10 :=
      Nat.digits_lt_base (by norm_num) (by rw [hd]; simp)
    have hd0 : d = 0 := digitChar_inj d hd10 0 (by norm_num) (by simpa [digitChar] using hchar)
    have hof := Nat.ofDigits_digits 10 b
    rw [hd, hd0] at hof
    exact hb (by simpa [Nat.ofDigits] using hof.symm)
  · exfalso
    rw [hb, natRepr_data a ha] at hdata
    have h0 : (['0'] : List Char) = ((Nat.digits 10 a).map digitChar).reverse := hdata.symm
    have hlen : (Nat.digits 10 a).length = 1 := by
      have := congrArg List.length h0
      simpa using this.symm
    obtain ⟨d, hd⟩ : ∃ d, Nat.digits 10 a = [d] := by
      match hdig : Nat.digits 10 a with
      | [] => rw [hdig] at hlen; simp at hlen
      | [d] => exact ⟨d, rfl⟩
      | d :: e :: rest => rw [hdig] at hlen; simp at hlen
    rw [hd] at h0
    have hchar : digitChar d = '0' := by simpa using h0.symm
    have hd10 : d < 10 :=
      Nat.digits_lt_base (by norm_num) (by rw [hd]; simp)
    have hd0 : d = 0 := digitChar_inj d hd10 0 (by norm_num) (by simpa [digitChar] using hchar)
    have hof := Nat.ofDigits_digits 10 a
    rw [hd, hd0] at hof
    exact ha (by simpa [Nat.ofDigits] using hof.symm)
  · rw [natRepr_data a ha, natRepr_data b hb] at hdata
    have hmap : (Nat.digits 10 a).map digitChar = (Nat.digits 10 b).map digitChar :=
      List.reverse_injective hdata
    have hdig : Nat.digits 10 a = Nat.digits 10 b :=
      map_digitChar_inj _ _ (fun x hx => Nat.digits_lt_base (by norm_num) hx)
        (fun y hy => Nat.digits_lt_base (by norm_num) hy) hmap
    have := congrArg (Nat.ofDigits 10) hdig
    rwa [Nat.ofDigits_digits, Nat.ofDigits_digits] at this

lemma mkCandidate_inj {t : String} {a b : Nat} (h : mkCandidate t a = mkCandidate t b) :
    a = b := by
  have hdata := congrArg String.data h
  simp only [mkCandidate, String.data_append] at hdata
  have h1 := List.append_cancel_right hdata
  have h2 := List.append_cancel_left h1
  exact natRepr_inj (string_data_inj h2)

lemma isNameUsed_eq_false_iff (l : List Manga) (t : String) :
    isNameUsed l t = false ↔ ∀ m ∈ l, m.title ≠ t := by
  simp [isNameUsed]

lemma isNameUsed_eq_true_iff (l : List Manga) (t : String) :
    isNameUsed l t = true ↔ ∃ m ∈ l, m.title = t := by
  simp [isNameUsed]

lemma exists_unused_candidate (l : List Manga) (t : String) (c : Nat) :
    ∃ m, c ≤ m ∧ m < c + l.length + 1 ∧ isNameUsed l (mkCandidate t m) = false := by
  by_contra hcon
  push_neg at hcon
  have hall : ∀ m ∈ Finset.Ico c (c + l.length + 1),
      mkCandidate t m ∈ (l.map Manga.title).toFinset := by
    intro m hm
    rw [Finset.mem_Ico] at hm
    have hused : isNameUsed l (mkCandidate t m) = true := by
      have := hcon m hm.1 hm.2
      simpa using this
    rw [isNameUsed_eq_true_iff] at hused
    obtain ⟨rec, hrec, htitle⟩ := hused
    rw [List.mem_toFinset, List.mem_map]
    exact ⟨rec, hrec, htitle⟩
  have hinj : Set.InjOn (mkCandidate t) (Finset.Ico c (c + l.length + 1)) :=
    fun a _ b _ hab => mkCandidate_inj hab
  have hcard := Finset.card_le_card_of_injOn (mkCandidate t) hall hinj
  rw [Nat.card_Ico] at hcard
  have hle : (l.map Manga.title).toFinset.card ≤ l.length := by
    calc (l.map Manga.title).toFinset.card ≤ (l.map Manga.title).length :=
          (l.map Manga.title).toFinset_card_le
      _ = l.length := List.length_map l Manga.title
  omega

lemma generateUniqueTitleGo_spec (l : List Manga) (t : String) :
    ∀ fuel counter,
      (∃ m, counter ≤ m ∧ m < counter + fuel ∧ isNameUsed l (mkCandidate t m) = false) →
      ∃ n, counter ≤ n ∧ generateUniqueTitleGo l t counter fuel = mkCandidate t n ∧
        isNameUsed l (mkCandidate t n) = false ∧
        ∀ m, counter ≤ m → m < n → isNameUsed l (mkCandidate t m) = true := by
  intro fuel
  induction fuel with
  | zero =>
    intro counter ⟨m, hm1, hm2, _⟩
    omega
  | succ fuel ih =>
    intro counter ⟨m, hm1, hm2, hm3⟩
    by_cases hc : isNameUsed l (mkCandidate t counter) = true
    · have hrec : ∃ m, counter + 1 ≤ m ∧ m < counter + 1 + fuel ∧
          isNameUsed l (mkCandidate t m) = false := by
        refine ⟨m, ?_, by omega, hm3⟩
        rcases Nat.eq_or_lt_of_le hm1 with heq | hlt
        · exfalso; rw [← heq] at hm3; rw [hm3] at hc; exact Bool.noConfusion hc
        · omega
      obtain ⟨n, hn1, hn2, hn3, hn4⟩ := ih (counter + 1) hrec
      refine ⟨n, by omega, ?_, hn3, ?_⟩
      · rw [generateUniqueTitleGo, if_pos hc]; exact hn2
      · intro m' hm'1 hm'2
        rcases Nat.eq_or_lt_of_le hm'1 with heq | hlt
        · rw [← heq]; exact hc
        · exact hn4 m' hlt hm'2
    · have hc' : isNameUsed l (mkCandidate t counter) = false := by
        simpa using hc
      refine ⟨counter, le_rfl, ?_, hc', fun m' hm'1 hm'2 => absurd hm'1 (by omega)⟩
      rw [generateUniqueTitleGo, if_neg (by simp [hc'])]

lemma generateUniqueTitle_of_unused (l : List Manga) (t : String)
    (h : isNameUsed l t = false) : generateUniqueTitle l t = t := by
  rw [generateUniqueTitle, if_neg (by simp [h])]

lemma generateUniqueTitle_spec (l : List Manga) (t : String)
    (h : isNameUsed l t = true) :
    ∃ n, 0 < n ∧ generateUniqueTitle l t = mkCandidate t n ∧
      isNameUsed l (mkCandidate t n) = false ∧
      ∀ m, 0 < m → m < n → isNameUsed l (mkCandidate t m) = true := by
  obtain ⟨n, hn1, hn2, hn3, hn4⟩ :=
    generateUniqueTitleGo_spec l t (l.length + 1) 1
      (by simpa [Nat.add_comm] using exists_unused_candidate l t 1)
  refine ⟨n, hn1, ?_, hn3, fun m hm1 hm2 => hn4 m hm1 hm2⟩
  rw [generateUniqueTitle, if_pos h]
  exact hn2

lemma generateUniqueTitle_not_used (l : List Manga) (t : String) :
    isNameUsed l (generateUniqueTitle l t) = false := by
  by_cases h : isNameUsed l t = true
  · obtain ⟨n, _, heq, hunused, _⟩ := generateUniqueTitle_spec l t h
    rw [heq]; exact hunused
  · rw [generateUniqueTitle_of_unused l t (by simpa using h)]
    simpa using h

lemma validateMangaData_none_iff (l : List Manga) (d : MangaData) (orig : String) :
    validateMangaData l d orig = none ↔
      d.title ≠ "" ∧ (d.title = orig ∨ isNameUsed l d.title = false) := by
  constructor
  · intro h
    rw [validateMangaData] at h
    by_cases h1 : d.title = ""
    · rw [if_pos h1] at h
      exact absurd h (by simp)
    · rw [if_neg h1] at h
      by_cases h2 : d.title ≠ orig ∧ isNameUsed l d.title = true
      · rw [if_pos h2] at h
        exact absurd h (by simp)
      · push_neg at h2
        refine ⟨h1, ?_⟩
        by_cases ht : d.title = orig
        · exact Or.inl ht
        · exact Or.inr (by simpa using h2 ht)
  · rintro ⟨h1, h2⟩
    rw [validateMangaData, if_neg h1]
    rcases h2 with h2 | h2
    · rw [if_neg]
      rintro ⟨hne, _⟩
      exact hne h2
    · rw [if_neg]
      rintro ⟨_, hused⟩
      rw [h2] at hused
      exact Bool.noConfusion hused

lemma getMangaFormData_title_of_ne (l : List Manga) (form : FormInput)
    (tabTitle tabUrl : String) (h : form.title ≠ "") :
    (getMangaFormData l form tabTitle tabUrl).title = form.title := by
  simp [getMangaFormData, if_neg h]

lemma addNewManga_titles_nodup (l : List Manga) (form : FormInput)
    (tabTitle tabUrl now : String) (h : (l.map Manga.title).Nodup) :
    (((addNewManga l form tabTitle tabUrl now).2).map Manga.title).Nodup := by
  rw [addNewManga]
  cases hv : validateMangaData l (getMangaFormData l form tabTitle tabUrl) with
  | some e => simpa using h
  | none =>
    have hnone := (validateMangaData_none_iff l _ "").mp hv
    have hunused : isNameUsed l (getMangaFormData l form tabTitle tabUrl).title = false := by
      rcases hnone.2 with h0 | h0
      · exact absurd h0 hnone.1
      · exact h0
    have hnotmem : (getMangaFormData l form tabTitle tabUrl).title ∉ l.map Manga.title := by
      rw [isNameUsed_eq_false_iff] at hunused
      rw [List.mem_map]
      rintro ⟨rec, hrec, htitle⟩
      exact hunused rec hrec htitle
    simp only [List.map_append, List.map_cons, List.map_nil]
    rw [List.nodup_append]
    refine ⟨h, by simp [newMangaOf], ?_⟩
    intro a ha
    simp only [newMangaOf, List.mem_cons, List.not_mem_nil, or_false]
    intro heq
    rw [← heq] at hnotmem
    exact hnotmem ha

/-- Claim C2: adding a record whose (non-empty) title is already present in
the store is rejected with the `TitleNotUnique` modal key
(`modal-unique-title-required`), and the store — in particular its length —
is unchanged. The non-emptiness hypothesis is the spec's own data-model
invariant (titles are non-empty strings); an empty duplicate would instead
be rejected by the `TitleRequired` branch, also leaving the store unchanged. -/
theorem addNewManga_duplicate_rejected (l : List Manga) (form : FormInput)
    (tabTitle tabUrl now : String)
    (hvalid : ∀ rec ∈ l, rec.title ≠ "")
    (hdup : ∃ rec ∈ l, rec.title = form.title) :
    addNewManga l form tabTitle tabUrl now = (some "modal-unique-title-required", l) ∧
      (addNewManga l form tabTitle tabUrl now).2.length = l.length := by
  obtain ⟨rec, hrec, htitle⟩ := hdup
  have hne : form.title ≠ "" := by
    intro h0
    exact hvalid rec hrec (htitle.trans h0)
  have hd := getMangaFormData_title_of_ne l form tabTitle tabUrl hne
  have hused : isNameUsed l form.title = true :=
    (isNameUsed_eq_true_iff l form.title).mpr ⟨rec, hrec, htitle⟩
  have hv : validateMangaData l (getMangaFormData l form tabTitle tabUrl) = some "modal-unique-title-required" := by
    rw [validateMangaData, hd, if_neg hne, if_pos ⟨hne, hused⟩]
  have hmain : addNewManga l form tabTitle tabUrl now = (some "modal-unique-title-required", l) := by
    rw [addNewManga, hv]
  exact ⟨hmain, by rw [hmain]⟩

/-- Witness for `addNewManga_duplicate_rejected` at the spec's scenario:
store `[{title: "A", readChapters: 2}]`, submitting `{title: "A", link: "x"}`
is rejected and the store is unchanged. -/
theorem addNewManga_duplicate_rejected_witness :
    addNewManga
        [{ image := "", title := "A", link := "a", isImageWorking := true,
           readChapters := 2, favorite := false, dayAdded := "d", lastRead := "r" }]
        { image := "", title := "A", link := "x", readChapters := some 0, favorite := false }
        "tabT" "tabU" "now" =
      (some "modal-unique-title-required",
        [{ image := "", title := "A", link := "a", isImageWorking := true,
           readChapters := 2, favorite := false, dayAdded := "d", lastRead := "r" }]) ∧
      (addNewManga
        [{ image := "", title := "A", link := "a", isImageWorking := true,
           readChapters := 2, favorite := false, dayAdded := "d", lastRead := "r" }]
        { image := "", title := "A", link := "x", readChapters := some 0, favorite := false }
        "tabT" "tabU" "now").2.length = 1 :=
  addNewManga_duplicate_rejected
    [{ image := "", title := "A", link := "a", isImageWorking := true,
       readChapters := 2, favorite := false, dayAdded := "d", lastRead := "r" }]
    { image := "", title := "A", link := "x", readChapters := some 0, favorite := false }
    "tabT" "tabU" "now"
    (by decide)
    ⟨{ image := "", title := "A", link := "a", isImageWorking := true,
       readChapters := 2, favorite := false, dayAdded := "d", lastRead := "r" }, by decide, rfl⟩

lemma updateMangaGo_shape (l : List Manga) (tt : String) (d : MangaData)
    (u now : String) :
    ∀ xs : List Manga,
      (updateMangaGo l tt d u now xs).2 = xs ∨
      ∃ pre m post, xs = pre ++ m :: post ∧
        (updateMangaGo l tt d u now xs).2 = pre ++ mergeManga m d now :: post ∧
        (d.title = m.title ∨ isNameUsed l d.title = false) := by
  intro xs
  induction xs with
  | nil => left; rfl
  | cons m rest ih =>
    rw [updateMangaGo]
    by_cases hm : (m.title == tt) = true
    · rw [if_pos hm]
      cases hv : validateMangaData l d m.title with
      | some e => left; rfl
      | none =>
        by_cases hch : hasChanges m d = true
        · rw [if_pos hch]
          by_cases hlink : (m.link == u) = true
          · rw [if_pos hlink]; left; rfl
          · rw [if_neg hlink]; left; rfl
        · rw [if_neg hch]
          right
          refine ⟨[], m, rest, rfl, rfl, ?_⟩
          have hnone := (validateMangaData_none_iff l d m.title).mp hv
          exact hnone.2
    · rw [if_neg hm]
      rcases ih with hsame | ⟨pre, mm, post, hxs, hres, hd⟩
      · left; simpa using hsame
      · right
        exact ⟨m :: pre, mm, post, by rw [hxs]; rfl, by simpa using hres, hd⟩

lemma mem_titles_of_middle {pre post : List Manga} {m : Manga} {l : List Manga}
    (hxs : l = pre ++ m :: post) (a : Manga) (ha : a ∈ pre ++ post) :
    a.title ∈ l.map Manga.title := by
  rw [hxs]
  rw [List.mem_append] at ha
  rcases ha with ha | ha
  · exact List.mem_map_of_mem Manga.title (by simp [ha])
  · exact List.mem_map_of_mem Manga.title (by simp [ha])

lemma nodup_middle_replace {pre post : List Manga} {m newM : Manga} {l : List Manga}
    (hxs : l = pre ++ m :: post)
    (hnodup : (l.map Manga.title).Nodup)
    (htitle : newM.title = m.title ∨ newM.title ∉ l.map Manga.title) :
    ((pre ++ newM :: post).map Manga.title).Nodup := by
  have horig : ((pre ++ m :: post).map Manga.title).Nodup := by rwa [hxs] at hnodup
  rw [List.map_append, List.map_cons] at horig ⊢
  rw [List.nodup_middle] at horig ⊢
  rw [List.nodup_cons] at horig ⊢
  refine ⟨?_, horig.2⟩
  rcases htitle with heq | hnot
  · rw [heq]
    rw [← List.map_append] at horig ⊢
    exact horig.1
  · rw [← List.map_append] at horig ⊢
    intro hmem
    rw [List.mem_map] at hmem
    obtain ⟨a, ha, htit⟩ := hmem
    exact hnot (htit ▸ mem_titles_of_middle hxs a ha)

lemma updateMangaDetails_titles_nodup (l : List Manga) (tt : String)
    (form : FormInput) (tabTitle tabUrl now : String)
    (h : (l.map Manga.title).Nodup) :
    (((updateMangaDetails l tt form tabTitle tabUrl now).2).map Manga.title).Nodup := by
  rw [updateMangaDetails]
  rcases updateMangaGo_shape l tt (getMangaFormData l form tabTitle tabUrl) tabUrl now l with
    hsame | ⟨pre, m, post, hxs, hres, hd⟩
  · rwa [hsame]
  · rw [hres]
    apply nodup_middle_replace hxs h
    rcases hd with hd | hd
    · exact Or.inl hd
    · right
      rw [isNameUsed_eq_false_iff] at hd
      intro hmem
      rw [List.mem_map] at hmem
      obtain ⟨a, ha, htit⟩ := hmem
      exact hd a ha (by simpa [mergeManga] using htit)

lemma confirmReloadGo_titles (tt u : String) :
    ∀ xs : List Manga, (confirmReloadGo tt u xs).map Manga.title = xs.map Manga.title := by
  intro xs
  induction xs with
  | nil => rfl
  | cons m rest ih =>
    rw [confirmReloadGo]
    by_cases hm : (m.title == tt) = true
    · rw [if_pos hm]
      by_cases hl : (m.link == u) = true
      · rw [if_pos hl]
      · rw [if_neg hl]; rfl
    · rw [if_neg hm]
      simp [ih]

lemma deleteManga_titles_nodup (l : List Manga) (manga : Manga)
    (h : (l.map Manga.title).Nodup) :
    ((deleteManga l manga).map Manga.title).Nodup := by
  have hsub : List.Sublist (deleteManga l manga) l := List.filter_sublist l
  exact h.sublist (hsub.map Manga.title)

lemma applyOp_titles_nodup (l : List Manga) (op : Op)
    (h : (l.map Manga.title).Nodup) :
    ((applyOp l op).map Manga.title).Nodup := by
  cases op with
  | add form tabTitle tabUrl now =>
    exact addNewManga_titles_nodup l form tabTitle tabUrl now h
  | edit tt form tabTitle tabUrl now confirm =>
    rw [applyOp]
    have hupd := updateMangaDetails_titles_nodup l tt form tabTitle tabUrl now h
    by_cases hc : (updateMangaDetails l tt form tabTitle tabUrl now).1 = UpdateOutcome.reloadPrompt ∧ confirm = true
    · rw [if_pos hc, confirmReloadGo_titles]
      exact hupd
    · rw [if_neg hc]
      exact hupd
  | delete manga =>
    exact deleteManga_titles_nodup l manga h

/-- Claim C1: starting from a store with pairwise-distinct titles, any
sequence of add (`addNewManga`), edit (`updateMangaDetails`, including an
answered link-reload confirmation) and delete (`deleteManga`) operations
leaves every title in the store unique (case-sensitive, exact match):
`addNewManga` rejects a record whose title is already present and
`updateMangaDetails` rejects a new title colliding with any record other
than the one being edited. -/
theorem store_titles_unique (ops : List Op) (l : List Manga)
    (h : (l.map Manga.title).Nodup) :
    ((ops.foldl applyOp l).map Manga.title).Nodup := by
  induction ops generalizing l with
  | nil => simpa using h
  | cons op ops ih =>
    rw [List.foldl_cons]
    exact ih (applyOp l op) (applyOp_titles_nodup l op h)

/-- Witness for `store_titles_unique`: two adds (the second a rejected
duplicate), an edit that renames, and a delete, starting from the empty
store, end with distinct titles. -/
theorem store_titles_unique_witness :
    ((([Op.add { image := "", title := "A", link := "a", readChapters := some 1, favorite := false } "t" "u" "n1",
        Op.add { image := "", title := "A", link := "b", readChapters := some 2, favorite := true } "t" "u" "n2",
        Op.add { image := "", title := "B", link := "c", readChapters := some 3, favorite := false } "t" "u" "n3",
        Op.edit "B" { image := "", title := "C", link := "c", readChapters := some 3, favorite := false } "t" "u" "n4" true,
        Op.delete (newMangaOf { image := "", title := "A", link := "a", isImageWorking := true, readChapters := 1, favorite := false } "n1")] : List Op).foldl
      applyOp []).map Manga.title).Nodup :=
  store_titles_unique _ [] (by decide)

lemma updateMangaGo_skip (l : List Manga) (tt : String) (d : MangaData)
    (u now : String) :
    ∀ (pre rest : List Manga), (∀ x ∈ pre, x.title ≠ tt) →
      updateMangaGo l tt d u now (pre ++ rest) =
        ((updateMangaGo l tt d u now rest).1,
          pre ++ (updateMangaGo l tt d u now rest).2) := by
  intro pre
  induction pre with
  | nil => intro rest _; simp
  | cons x pre ih =>
    intro rest hpre
    have hx : (x.title == tt) = false := by
      simpa using hpre x (by simp)
    rw [List.cons_append, updateMangaGo, if_neg (by simp [hx])]
    rw [ih rest (fun a ha => hpre a (by simp [ha]))]
    rfl

lemma updateMangaGo_head (l : List Manga) (d : MangaData) (u now : String)
    (m : Manga) (post : List Manga)
    (hv : validateMangaData l d m.title = none) :
    updateMangaGo l m.title d u now (m :: post) =
      if hasChanges m d then
        (if m.link = u then (UpdateOutcome.dialogsClosed, m :: post)
         else (UpdateOutcome.reloadPrompt, m :: post))
      else
        (UpdateOutcome.saved, mergeManga m d now :: post) := by
  rw [updateMangaGo, if_pos (by simp), hv]
  by_cases hch : hasChanges m d = true
  · rw [if_pos hch, if_pos hch]
    by_cases hl : m.link = u
    · rw [if_pos (by simp [hl]), if_pos hl]
    · rw [if_neg (by simp [hl]), if_neg hl]
  · rw [if_neg hch, if_neg hch]

/-- Claim C4 (amended): for an edit-mode submission whose target is found
and whose data passes validation — if the submitted data is unchanged from
the stored record on every compared field including the link (`hasChanges`
is true), then a tab URL differing from the stored link shows the
link-reload prompt and the store is not saved, while a tab URL equal to the
stored link closes the dialogs without saving; if any compared field —
including the link — differs, the submission merges the changes into the
record, refreshes `lastRead`, and the store is updated for persistence and
re-render. -/
theorem updateMangaDetails_edit_flow
    (pre post : List Manga) (m : Manga) (form : FormInput)
    (tabTitle tabUrl now : String)
    (hpre : ∀ x ∈ pre, x.title ≠ m.title)
    (hv : validateMangaData (pre ++ m :: post)
        (getMangaFormData (pre ++ m :: post) form tabTitle tabUrl) m.title = none) :
    (hasChanges m (getMangaFormData (pre ++ m :: post) form tabTitle tabUrl) = true →
      m.link ≠ tabUrl →
      updateMangaDetails (pre ++ m :: post) m.title form tabTitle tabUrl now =
        (UpdateOutcome.reloadPrompt, pre ++ m :: post)) ∧
    (hasChanges m (getMangaFormData (pre ++ m :: post) form tabTitle tabUrl) = true →
      m.link = tabUrl →
      updateMangaDetails (pre ++ m :: post) m.title form tabTitle tabUrl now =
        (UpdateOutcome.dialogsClosed, pre ++ m :: post)) ∧
    (hasChanges m (getMangaFormData (pre ++ m :: post) form tabTitle tabUrl) = false →
      updateMangaDetails (pre ++ m :: post) m.title form tabTitle tabUrl now =
        (UpdateOutcome.saved,
          pre ++ mergeManga m (getMangaFormData (pre ++ m :: post) form tabTitle tabUrl) now :: post) ∧
      (mergeManga m (getMangaFormData (pre ++ m :: post) form tabTitle tabUrl) now).lastRead = now) := by
  have hstep : updateMangaDetails (pre ++ m :: post) m.title form tabTitle tabUrl now =
      ((updateMangaGo (pre ++ m :: post) m.title
          (getMangaFormData (pre ++ m :: post) form tabTitle tabUrl) tabUrl now (m :: post)).1,
        pre ++ (updateMangaGo (pre ++ m :: post) m.title
          (getMangaFormData (pre ++ m :: post) form tabTitle tabUrl) tabUrl now (m :: post)).2) := by
    rw [updateMangaDetails]
    exact updateMangaGo_skip _ m.title _ tabUrl now pre (m :: post) hpre
  rw [hstep, updateMangaGo_head _ _ _ _ _ _ hv]
  refine ⟨?_, ?_, ?_⟩
  · intro hch hlink
    rw [if_pos hch, if_neg hlink]
  · intro hch hlink
    rw [if_pos hch, if_pos hlink]
  · intro hch
    rw [if_neg (by simp [hch])]
    exact ⟨rfl, rfl⟩

/-- Claim C4, counterexample to the claim as stated: with the stored record
`{title: "A", link: "a", ...}`, a submission identical except for the link
(now `"b"`), and an active tab providing `"c"` ≠ the record's link, the
claim demands a link-reload prompt with no save; the code instead saves the
merged record (outcome `saved`, store changed), because `hasChanges` also
compares the link. -/
theorem updateMangaDetails_link_change_saves :
    validateMangaData
        [{ image := "", title := "A", link := "a", isImageWorking := true,
           readChapters := 2, favorite := false, dayAdded := "d", lastRead := "r" }]
        (getMangaFormData
          [{ image := "", title := "A", link := "a", isImageWorking := true,
             readChapters := 2, favorite := false, dayAdded := "d", lastRead := "r" }]
          { image := "", title := "A", link := "b", readChapters := some 2, favorite := false }
          "tabT" "c")
        "A" = none ∧
    specUnchangedExceptLink
        { image := "", title := "A", link := "a", isImageWorking := true,
          readChapters := 2, favorite := false, dayAdded := "d", lastRead := "r" }
        (getMangaFormData
          [{ image := "", title := "A", link := "a", isImageWorking := true,
             readChapters := 2, favorite := false, dayAdded := "d", lastRead := "r" }]
          { image := "", title := "A", link := "b", readChapters := some 2, favorite := false }
          "tabT" "c") = true ∧
    ("a" : String) ≠ "c" ∧
    (updateMangaDetails
        [{ image := "", title := "A", link := "a", isImageWorking := true,
           readChapters := 2, favorite := false, dayAdded := "d", lastRead := "r" }]
        "A"
        { image := "", title := "A", link := "b", readChapters := some 2, favorite := false }
        "tabT" "c" "now").1 = UpdateOutcome.saved ∧
    (updateMangaDetails
        [{ image := "", title := "A", link := "a", isImageWorking := true,
           readChapters := 2, favorite := false, dayAdded := "d", lastRead := "r" }]
        "A"
        { image := "", title := "A", link := "b", readChapters := some 2, favorite := false }
        "tabT" "c" "now").2 ≠
      [{ image := "", title := "A", link := "a", isImageWorking := true,
         readChapters := 2, favorite := false, dayAdded := "d", lastRead := "r" }] ∧
    UpdateOutcome.saved ≠ UpdateOutcome.reloadPrompt := by
  refine ⟨by decide, by decide, by decide, by decide, by decide, by decide⟩

/-- Witness for `updateMangaDetails_edit_flow`: a fully unchanged submission
with a differing tab URL yields the reload prompt and an unchanged store. -/
theorem updateMangaDetails_edit_flow_witness :
    updateMangaDetails
        [{ image := "", title := "A", link := "a", isImageWorking := true,
           readChapters := 2, favorite := false, dayAdded := "d", lastRead := "r" }]
        "A"
        { image := "", title := "A", link := "a", readChapters := some 2, favorite := false }
        "tabT" "c" "now" =
      (UpdateOutcome.reloadPrompt,
        [{ image := "", title := "A", link := "a", isImageWorking := true,
           readChapters := 2, favorite := false, dayAdded := "d", lastRead := "r" }]) := by
  have h := (updateMangaDetails_edit_flow []
    [] { image := "", title := "A", link := "a", isImageWorking := true,
         readChapters := 2, favorite := false, dayAdded := "d", lastRead := "r" }
    { image := "", title := "A", link := "a", readChapters := some 2, favorite := false }
    "tabT" "c" "now" (by intro x hx; cases hx) (by decide)).1 (by decide) (by decide)
  simpa using h

lemma handleChapterUpdate_minus (m : Manga) (amount : Int) (now : String) :
    handleChapterUpdate m "-" amount now =
      { error := none
        manga := { m with
          readChapters :=
            if m.readChapters ≤ 0 then 0
            else m.readChapters - (if amount = 0 then 1 else amount)
          lastRead := now }
        dateText := some now
        chaptersText := some ("Ch. " ++ intRepr
          (if m.readChapters ≤ 0 then 0
           else m.readChapters - (if amount = 0 then 1 else amount))) } := rfl

lemma handleChapterUpdate_plus (m : Manga) (amount : Int) (now : String) :
    handleChapterUpdate m "+" amount now =
      { error := none
        manga := { m with
          readChapters := m.readChapters + (if amount = 0 then 1 else amount)
          lastRead := now }
        dateText := some now
        chaptersText := some ("Ch. " ++ intRepr
          (m.readChapters + (if amount = 0 then 1 else amount))) } := rfl

/-- Claim C3, counterexample to the claim as stated: for a record with
`readChapters = 1` and the positive decrement amount 2,
`handleChapterUpdate(record, "-", 2)` sets `readChapters` to −1 — negative,
not clamped — because the code assigns 0 only when the count is already ≤ 0
before subtracting. -/
theorem handleChapterUpdate_decrement_negative :
    ({ image := "", title := "A", link := "a", isImageWorking := true,
       readChapters := 1, favorite := false, dayAdded := "d", lastRead := "r" } : Manga).readChapters = 1 ∧
    (0 : Int) < 2 ∧
    (handleChapterUpdate
        { image := "", title := "A", link := "a", isImageWorking := true,
          readChapters := 1, favorite := false, dayAdded := "d", lastRead := "r" }
        "-" 2 "t").manga.readChapters = -1 ∧
    (handleChapterUpdate
        { image := "", title := "A", link := "a", isImageWorking := true,
          readChapters := 1, favorite := false, dayAdded := "d", lastRead := "r" }
        "-" 2 "t").manga.readChapters < 0 := by
  refine ⟨by decide, by decide, by decide, by decide⟩

/-- Claim C3 (amended): for a record with `readChapters ≥ 0`, a decrement
whose amount does not exceed the current count — or any decrement when the
count is 0, in particular the UI's fixed amount 1 — never leaves
`readChapters` negative, and a decrement at count 0 clamps it to 0. The
counterexample `handleChapterUpdate_decrement_negative` forces the amount
bound: amounts larger than a positive count drive the count negative. -/
theorem handleChapterUpdate_decrement_clamped (m : Manga) (amount : Int)
    (now : String) (h0 : 0 ≤ m.readChapters)
    (ham : amount ≤ m.readChapters ∨ m.readChapters = 0) :
    0 ≤ (handleChapterUpdate m "-" amount now).manga.readChapters ∧
      (m.readChapters = 0 →
        (handleChapterUpdate m "-" amount now).manga.readChapters = 0) := by
  have hval : (handleChapterUpdate m "-" amount now).manga.readChapters =
      if m.readChapters ≤ 0 then 0
      else m.readChapters - (if amount = 0 then 1 else amount) := by
    rw [handleChapterUpdate_minus]
  rw [hval]
  by_cases hz : m.readChapters ≤ 0
  · rw [if_pos hz]
    exact ⟨le_rfl, fun _ => rfl⟩
  · rw [if_neg hz]
    by_cases ha : amount = 0
    · rw [if_pos ha]
      exact ⟨by omega, fun h => by omega⟩
    · rw [if_neg ha]
      rcases ham with hle | hzero
      · exact ⟨by omega, fun h => by omega⟩
      · exact absurd hzero (by omega)

/-- Witness for `handleChapterUpdate_decrement_clamped` at the spec's
scenario: `readChapters = 5`, decrement by 1 ends non-negative (it ends
at 4, with `lastRead` refreshed, checked separately below). -/
theorem handleChapterUpdate_decrement_clamped_witness :
    0 ≤ (handleChapterUpdate
        { image := "", title := "A", link := "a", isImageWorking := true,
          readChapters := 5, favorite := false, dayAdded := "d", lastRead := "r" }
        "-" 1 "t").manga.readChapters ∧
      (({ image := "", title := "A", link := "a", isImageWorking := true,
          readChapters := 5, favorite := false, dayAdded := "d", lastRead := "r" } : Manga).readChapters = 0 →
        (handleChapterUpdate
          { image := "", title := "A", link := "a", isImageWorking := true,
            readChapters := 5, favorite := false, dayAdded := "d", lastRead := "r" }
          "-" 1 "t").manga.readChapters = 0) :=
  handleChapterUpdate_decrement_clamped
    { image := "", title := "A", link := "a", isImageWorking := true,
      readChapters := 5, favorite := false, dayAdded := "d", lastRead := "r" }
    1 "t" (by decide) (Or.inl (by decide))

/-- Claim C7: incrementing by 1 via `handleChapterUpdate(record, "+", 1)`
adds exactly 1 to `readChapters`, refreshes `lastRead` to the current time
(also written to the `#date` element), and writes exactly
`"Ch. " ++ <new count>` to the chapter label. -/
theorem handleChapterUpdate_increment (m : Manga) (now : String) :
    (handleChapterUpdate m "+" 1 now).error = none ∧
    (handleChapterUpdate m "+" 1 now).manga.readChapters = m.readChapters + 1 ∧
    (handleChapterUpdate m "+" 1 now).manga.lastRead = now ∧
    (handleChapterUpdate m "+" 1 now).dateText = some now ∧
    (handleChapterUpdate m "+" 1 now).chaptersText =
      some ("Ch. " ++ intRepr (m.readChapters + 1)) :=
  ⟨rfl, rfl, rfl, rfl, rfl⟩

/-- Claim C9: `handleChapterUpdate` throws exactly when the operation is
neither `"+"` nor `"-"`, and on a throw the record — `readChapters`,
`lastRead` and all — and both DOM text nodes are untouched. -/
theorem handleChapterUpdate_invalid_iff (m : Manga) (op : String)
    (amount : Int) (now : String) :
    ((handleChapterUpdate m op amount now).error.isSome = true ↔
      (op ≠ "+" ∧ op ≠ "-")) ∧
    ((handleChapterUpdate m op amount now).error.isSome = true →
      (handleChapterUpdate m op amount now).manga = m ∧
      (handleChapterUpdate m op amount now).dateText = none ∧
      (handleChapterUpdate m op amount now).chaptersText = none) := by
  by_cases h1 : op = "+"
  · simp [handleChapterUpdate, h1]
  · by_cases h2 : op = "-"
    · simp [handleChapterUpdate, h1, h2]
    · simp [handleChapterUpdate, h1, h2]

/-- Witness for `handleChapterUpdate_invalid_iff` at the operation `"*"`:
the call throws and leaves the record and both text nodes untouched. -/
theorem handleChapterUpdate_invalid_iff_witness :
    (((handleChapterUpdate
        { image := "", title := "A", link := "a", isImageWorking := true,
          readChapters := 2, favorite := false, dayAdded := "d", lastRead := "r" }
        "*" 1 "t").error.isSome = true ↔
      (("*" : String) ≠ "+" ∧ ("*" : String) ≠ "-")) ∧
    ((handleChapterUpdate
        { image := "", title := "A", link := "a", isImageWorking := true,
          readChapters := 2, favorite := false, dayAdded := "d", lastRead := "r" }
        "*" 1 "t").error.isSome = true →
      (handleChapterUpdate
        { image := "", title := "A", link := "a", isImageWorking := true,
          readChapters := 2, favorite := false, dayAdded := "d", lastRead := "r" }
        "*" 1 "t").manga =
        { image := "", title := "A", link := "a", isImageWorking := true,
          readChapters := 2, favorite := false, dayAdded := "d", lastRead := "r" } ∧
      (handleChapterUpdate
        { image := "", title := "A", link := "a", isImageWorking := true,
          readChapters := 2, favorite := false, dayAdded := "d", lastRead := "r" }
        "*" 1 "t").dateText = none ∧
      (handleChapterUpdate
        { image := "", title := "A", link := "a", isImageWorking := true,
          readChapters := 2, favorite := false, dayAdded := "d", lastRead := "r" }
        "*" 1 "t").chaptersText = none)) :=
  handleChapterUpdate_invalid_iff
    { image := "", title := "A", link := "a", isImageWorking := true,
      readChapters := 2, favorite := false, dayAdded := "d", lastRead := "r" }
    "*" 1 "t"

/-- Claim C10: `deleteManga` removes exactly the given record — matched by
identity, not by title — from the store; every other record, including one
with the same title, stays, in its original relative order. The hypothesis
that the record occurs at exactly one position is where structural
inequality coincides with JS reference inequality `m !== manga`. -/
theorem deleteManga_removes_exactly (l1 l2 : List Manga) (manga : Manga)
    (h1 : manga ∉ l1) (h2 : manga ∉ l2) :
    deleteManga (l1 ++ manga :: l2) manga = l1 ++ l2 := by
  have p1 : ∀ x ∈ l1, (decide (x ≠ manga)) = true := by
    intro x hx
    simp only [decide_eq_true_eq]
    intro he
    exact h1 (he ▸ hx)
  have p2 : ∀ x ∈ l2, (decide (x ≠ manga)) = true := by
    intro x hx
    simp only [decide_eq_true_eq]
    intro he
    exact h2 (he ▸ hx)
  rw [deleteManga, List.filter_append, List.filter_cons]
  rw [List.filter_eq_self.mpr p1, List.filter_eq_self.mpr p2]
  simp

/-- Witness for `deleteManga_removes_exactly`: deleting one record keeps a
second record that has the same title but is a different object. -/
theorem deleteManga_removes_exactly_witness :
    deleteManga
        ([] ++
          { image := "", title := "A", link := "a", isImageWorking := true,
            readChapters := 2, favorite := false, dayAdded := "d", lastRead := "r" } ::
          [{ image := "", title := "A", link := "b", isImageWorking := true,
             readChapters := 3, favorite := true, dayAdded := "d2", lastRead := "r2" }])
        { image := "", title := "A", link := "a", isImageWorking := true,
          readChapters := 2, favorite := false, dayAdded := "d", lastRead := "r" } =
      [] ++
        [{ image := "", title := "A", link := "b", isImageWorking := true,
           readChapters := 3, favorite := true, dayAdded := "d2", lastRead := "r2" }] :=
  deleteManga_removes_exactly []
    [{ image := "", title := "A", link := "b", isImageWorking := true,
       readChapters := 3, favorite := true, dayAdded := "d2", lastRead := "r2" }]
    { image := "", title := "A", link := "a", isImageWorking := true,
      readChapters := 2, favorite := false, dayAdded := "d", lastRead := "r" }
    (by decide) (by decide)

lemma createMangaElement_titleText (m : Manga) (darkMode : Bool) :
    (createMangaElement m darkMode).titleText =
      if m.title.length < 20 then m.title
      else String.mk (m.title.data.take (22 - 3)) ++ "..." := rfl

/-- Claim C8, counterexample to the claim as stated: a title of exactly 20
characters has length ≤ 20, yet the rendered title is truncated to its
first 19 characters plus `"..."` — the code's guard is `length < 20`, not
`length ≤ 20`. -/
theorem createMangaElement_title_20_truncated :
    ("ABCDEFGHIJKLMNOPQRST" : String).length ≤ 20 ∧
    (createMangaElement
        { image := "", title := "ABCDEFGHIJKLMNOPQRST", link := "a", isImageWorking := true,
          readChapters := 2, favorite := false, dayAdded := "d", lastRead := "r" }
        false).titleText ≠ "ABCDEFGHIJKLMNOPQRST" ∧
    (createMangaElement
        { image := "", title := "ABCDEFGHIJKLMNOPQRST", link := "a", isImageWorking := true,
          readChapters := 2, favorite := false, dayAdded := "d", lastRead := "r" }
        false).titleText = "ABCDEFGHIJKLMNOPQRS..." := by
  refine ⟨by decide, by decide, by decide⟩

/-- Claim C8 (amended): the rendered list item shows the title in full when
the title has fewer than 20 characters; from 20 characters on it shows the
first 19 characters with `"..."` appended — a 22-character string. The
counterexample `createMangaElement_title_20_truncated` forces the boundary:
the code truncates already at exactly 20 characters. -/
theorem createMangaElement_title_display (m : Manga) (darkMode : Bool) :
    (m.title.length < 20 → (createMangaElement m darkMode).titleText = m.title) ∧
    (20 ≤ m.title.length →
      (createMangaElement m darkMode).titleText =
        String.mk (m.title.data.take 19) ++ "..." ∧
      (createMangaElement m darkMode).titleText.length = 22) := by
  constructor
  · intro h
    rw [createMangaElement_titleText, if_pos h]
  · intro h
    rw [createMangaElement_titleText, if_neg (by omega)]
    refine ⟨rfl, ?_⟩
    rw [String.length_append]
    have h1 : (String.mk (m.title.data.take (22 - 3))).length =
        (m.title.data.take (22 - 3)).length := rfl
    rw [h1, List.length_take]
    have h2 : m.title.data.length = m.title.length := rfl
    rw [h2, min_eq_left (by omega)]
    rfl

/-- Witness for `createMangaElement_title_display` on a 21-character title:
it renders as its first 19 characters plus the ellipsis, 22 characters. -/
theorem createMangaElement_title_display_witness :
    (("ABCDEFGHIJKLMNOPQRSTU" : String).length < 20 →
      (createMangaElement
        { image := "", title := "ABCDEFGHIJKLMNOPQRSTU", link := "a", isImageWorking := true,
          readChapters := 2, favorite := false, dayAdded := "d", lastRead := "r" }
        false).titleText = "ABCDEFGHIJKLMNOPQRSTU") ∧
    (20 ≤ ("ABCDEFGHIJKLMNOPQRSTU" : String).length →
      (createMangaElement
        { image := "", title := "ABCDEFGHIJKLMNOPQRSTU", link := "a", isImageWorking := true,
          readChapters := 2, favorite := false, dayAdded := "d", lastRead := "r" }
        false).titleText =
        String.mk (("ABCDEFGHIJKLMNOPQRSTU" : String).data.take 19) ++ "..." ∧
      (createMangaElement
        { image := "", title := "ABCDEFGHIJKLMNOPQRSTU", link := "a", isImageWorking := true,
          readChapters := 2, favorite := false, dayAdded := "d", lastRead := "r" }
        false).titleText.length = 22) :=
  createMangaElement_title_display
    { image := "", title := "ABCDEFGHIJKLMNOPQRSTU", link := "a", isImageWorking := true,
      readChapters := 2, favorite := false, dayAdded := "d", lastRead := "r" }
    false

lemma loadBatchGo_flatten : ∀ (fuel : Nat) (rem : List α) (b : Nat),
    rem.length < fuel → 0 < b → (loadBatchGo fuel rem b).flatten = rem := by
  intro fuel
  induction fuel with
  | zero => intro rem b h _; omega
  | succ fuel ih =>
    intro rem b h hb
    rw [loadBatchGo]
    by_cases hlt : b < rem.length
    · rw [if_pos hlt, List.flatten_cons]
      rw [ih (rem.drop b) b (by rw [List.length_drop]; omega) hb]
      exact List.take_append_drop b rem
    · rw [if_neg hlt, List.flatten_cons]
      rw [List.take_of_length_le (by omega)]
      simp

lemma loadBatchGo_ne_nil (rem : List α) (b : Nat) :
    ∀ fuel, 0 < fuel → loadBatchGo fuel rem b ≠ [] := by
  intro fuel hf
  obtain ⟨f, rfl⟩ : ∃ f, fuel = f + 1 := ⟨fuel - 1, by omega⟩
  rw [loadBatchGo]
  exact List.cons_ne_nil _ _

lemma loadBatchGo_dropLast_length : ∀ (fuel : Nat) (rem : List α) (b : Nat),
    rem.length < fuel → 0 < b →
    ∀ batch ∈ (loadBatchGo fuel rem b).dropLast, batch.length = b := by
  intro fuel
  induction fuel with
  | zero => intro rem b h _; omega
  | succ fuel ih =>
    intro rem b h hb
    rw [loadBatchGo]
    by_cases hlt : b < rem.length
    · rw [if_pos hlt]
      have hne : loadBatchGo fuel (rem.drop b) b ≠ [] :=
        loadBatchGo_ne_nil (rem.drop b) b fuel (by omega)
      rw [List.dropLast_cons_of_ne_nil hne]
      intro batch hbatch
      rcases List.mem_cons.mp hbatch with hb1 | hb2
      · rw [hb1, List.length_take]
        omega
      · exact ih (rem.drop b) b (by rw [List.length_drop]; omega) hb batch hb2
    · rw [if_neg hlt]
      intro batch hbatch
      simp at hbatch

lemma loadBatchGo_map_length : ∀ (fuel : Nat) (rem : List α) (b : Nat),
    (loadBatchGo fuel rem b).map List.length = loadLensGo fuel rem.length b := by
  intro fuel
  induction fuel with
  | zero => intro rem b; rfl
  | succ fuel ih =>
    intro rem b
    rw [loadBatchGo, loadLensGo, List.map_cons, List.length_take]
    by_cases hlt : b < rem.length
    · rw [if_pos hlt, if_pos hlt, ih (rem.drop b) b, List.length_drop]
    · rw [if_neg hlt, if_neg hlt]
      rfl

/-- Claim C5: for a positive batch size `b` (the source default is 3),
`loadMangas` clears the container and appends the records in original list
order across batches: the concatenation of the append events is exactly the
input list (each record appears exactly once, in order), every append event
except the last inserts exactly `b` records, and rendering any 7 records
with `b = 3` yields exactly 3 append events of sizes 3, 3 and 1. -/
theorem loadMangas_batches (l : List α) (b : Nat) (hb : 0 < b) :
    (loadMangas l b).flatten = l ∧
    (∀ batch ∈ (loadMangas l b).dropLast, batch.length = b) ∧
    (l.length = 7 → b = 3 → (loadMangas l b).map List.length = [3, 3, 1]) := by
  refine ⟨loadBatchGo_flatten (l.length + 1) l b (by omega) hb,
    loadBatchGo_dropLast_length (l.length + 1) l b (by omega) hb, ?_⟩
  intro h7 hb3
  rw [loadMangas, loadBatchGo_map_length, h7, hb3]
  rfl

/-- Witness for `loadMangas_batches` at the spec's scenario: 7 records with
batch size 3 append in order as events of sizes 3, 3 and 1. -/
theorem loadMangas_batches_witness :
    (loadMangas [0, 1, 2, 3, 4, 5, 6] 3).flatten = [0, 1, 2, 3, 4, 5, 6] ∧
    (∀ batch ∈ (loadMangas [0, 1, 2, 3, 4, 5, 6] 3).dropLast, batch.length = 3) ∧
    (([0, 1, 2, 3, 4, 5, 6] : List Nat).length = 7 → 3 = 3 →
      (loadMangas [0, 1, 2, 3, 4, 5, 6] 3).map List.length = [3, 3, 1]) :=
  loadMangas_batches [0, 1, 2, 3, 4, 5, 6] 3 (by decide)

/-- Claim C6: when the title field is empty at submit time,
`getMangaFormData` falls back to the active tab's title made unique by
`generateUniqueTitle`, which returns the base title itself when no stored
record has it, and otherwise the base title suffixed with `" (n)"` for the
smallest positive integer `n` making the result distinct from every stored
title. -/
theorem getMangaFormData_title_autofill (l : List Manga) (form : FormInput)
    (tabTitle tabUrl : String) (hempty : form.title = "") :
    (getMangaFormData l form tabTitle tabUrl).title = generateUniqueTitle l tabTitle ∧
    (isNameUsed l tabTitle = false → generateUniqueTitle l tabTitle = tabTitle) ∧
    (isNameUsed l tabTitle = true →
      ∃ n, 0 < n ∧ generateUniqueTitle l tabTitle = mkCandidate tabTitle n ∧
        (∀ rec ∈ l, rec.title ≠ mkCandidate tabTitle n) ∧
        ∀ k, 0 < k → k < n → isNameUsed l (mkCandidate tabTitle k) = true) := by
  refine ⟨?_, fun h => generateUniqueTitle_of_unused l tabTitle h, fun h => ?_⟩
  · simp [getMangaFormData, hempty]
  · obtain ⟨n, hn1, hn2, hn3, hn4⟩ := generateUniqueTitle_spec l tabTitle h
    exact ⟨n, hn1, hn2, (isNameUsed_eq_false_iff l _).mp hn3, hn4⟩

/-- Witness for `getMangaFormData_title_autofill`: with the store holding
titles `"A"` and `"A (1)"`, an empty title field and tab title `"A"`, the
submitted title is `generateUniqueTitle`'s result (which is `"A (2)"`). -/
theorem getMangaFormData_title_autofill_witness :
    (getMangaFormData
        [{ image := "", title := "A", link := "a", isImageWorking := true,
           readChapters := 2, favorite := false, dayAdded := "d", lastRead := "r" },
         { image := "", title := "A (1)", link := "b", isImageWorking := true,
           readChapters := 3, favorite := true, dayAdded := "d2", lastRead := "r2" }]
        { image := "", title := "", link := "x", readChapters := some 0, favorite := false }
        "A" "u").title =
      generateUniqueTitle
        [{ image := "", title := "A", link := "a", isImageWorking := true,
           readChapters := 2, favorite := false, dayAdded := "d", lastRead := "r" },
         { image := "", title := "A (1)", link := "b", isImageWorking := true,
           readChapters := 3, favorite := true, dayAdded := "d2", lastRead := "r2" }]
        "A" ∧
    (isNameUsed
        [{ image := "", title := "A", link := "a", isImageWorking := true,
           readChapters := 2, favorite := false, dayAdded := "d", lastRead := "r" },
         { image := "", title := "A (1)", link := "b", isImageWorking := true,
           readChapters := 3, favorite := true, dayAdded := "d2", lastRead := "r2" }]
        "A" = false →
      generateUniqueTitle
        [{ image := "", title := "A", link := "a", isImageWorking := true,
           readChapters := 2, favorite := false, dayAdded := "d", lastRead := "r" },
         { image := "", title := "A (1)", link := "b", isImageWorking := true,
           readChapters := 3, favorite := true, dayAdded := "d2", lastRead := "r2" }]
        "A" = "A") ∧
    (isNameUsed
        [{ image := "", title := "A", link := "a", isImageWorking := true,
           readChapters := 2, favorite := false, dayAdded := "d", lastRead := "r" },
         { image := "", title := "A (1)", link := "b", isImageWorking := true,
           readChapters := 3, favorite := true, dayAdded := "d2", lastRead := "r2" }]
        "A" = true →
      ∃ n, 0 < n ∧
        generateUniqueTitle
          [{ image := "", title := "A", link := "a", isImageWorking := true,
             readChapters := 2, favorite := false, dayAdded := "d", lastRead := "r" },
           { image := "", title := "A (1)", link := "b", isImageWorking := true,
             readChapters := 3, favorite := true, dayAdded := "d2", lastRead := "r2" }]
          "A" = mkCandidate "A" n ∧
        (∀ rec ∈
            ([{ image := "", title := "A", link := "a", isImageWorking := true,
                readChapters := 2, favorite := false, dayAdded := "d", lastRead := "r" },
              { image := "", title := "A (1)", link := "b", isImageWorking := true,
                readChapters := 3, favorite := true, dayAdded := "d2", lastRead := "r2" }] : List Manga),
          rec.title ≠ mkCandidate "A" n) ∧
        ∀ k, 0 < k → k < n →
          isNameUsed
            [{ image := "", title := "A", link := "a", isImageWorking := true,
               readChapters := 2, favorite := false, dayAdded := "d", lastRead := "r" },
             { image := "", title := "A (1)", link := "b", isImageWorking := true,
               readChapters := 3, favorite := true, dayAdded := "d2", lastRead := "r2" }]
            (mkCandidate "A" k) = true) :=
  getMangaFormData_title_autofill
    [{ image := "", title := "A", link := "a", isImageWorking := true,
       readChapters := 2, favorite := false, dayAdded := "d", lastRead := "r" },
     { image := "", title := "A (1)", link := "b", isImageWorking := true,
       readChapters := 3, favorite := true, dayAdded := "d2", lastRead := "r2" }]
    { image := "", title := "", link := "x", readChapters := some 0, favorite := false }
    "A" "u" rfl
